import Mathlib

/-!
Formal model of the AdaptiveRED packet-dropping element and of the
click-install configuration writer from the Click modular router.

The element header (src/elements/aqm/adaptivered.hh) provides the numeric
constants, the state fields, the processing signature and the inline
accessors; the bodies of the element's methods are not among the available
sources, so they are modelled from the specification.  Every definition
whose body is reconstructed that way carries a doc comment beginning
`Modelled from the spec:`.  The click-install tool (click-install.cc) is
available in full and its configuration-write loop is embedded directly.
-/

/-- Queue sizes are shifted by this much (adaptivered.hh line 113). -/
def QUEUE_SCALE : Nat := 10

/-- Period of the adaptive controller timer (adaptivered.hh line 132). -/
def ADAPTIVE_INTERVAL : Nat := 500

/-- About 1% of the 0xFFFF probability scale (adaptivered.hh line 133). -/
def ONE_HUNDREDTH : Nat := 655

/-- The adaptation constant, about 0.9 on a 0x10000 scale
(adaptivered.hh line 134). -/
def NINE_TENTHS : Nat := 58982

/-- The processing signature string (adaptivered.hh line 83). -/
def processing : String := "a/ah"

/-- The element supports live reconfiguration (adaptivered.hh line 96). -/
def can_live_reconfigure : Bool := true

/-- The mutable per-element state of AdaptiveRED: configuration parameters
(`min_thresh`, `max_thresh` in scaled units, `max_p` out of 0xFFFF, the
observed queue handles) together with the average, decision and counter
state (fields of adaptivered.hh lines 109-130). -/
structure ElementState where
  min_thresh : Nat
  max_thresh : Nat
  max_p : Nat
  size : Nat
  count : Int
  drops : Nat
  random_value : Nat
  queues : List Nat
deriving DecidableEq, Repr

/-- The current average queue size is a plain read of the `_size` field
(adaptivered.hh line 87: a const accessor returning the field). -/
def average_queue_size (st : ElementState) : Nat := st.size

/-- Modelled from the spec: the linear-region base probability
`pb = max_p * (avg - min_thresh) / (max_thresh - min_thresh)`, in fixed
point out of 0xFFFF (the body of should_drop is not in the available
sources). -/
def computePb (mn mx mp avg : Nat) : Nat :=
  mp * (avg - mn) / (mx - mn)

/-- Modelled from the spec: the count-compensated probability
`pa = pb / (1 - count * pb)` in fixed point out of 0xFFFF, clamped so the
effective probability never exceeds 1 (the body of should_drop is not in
the available sources). -/
def computePa (pb : Nat) (count : Int) : Nat :=
  let d : Int := 0xFFFF - count * (pb : Int)
  if d ≤ 0 then 0xFFFF else min 0xFFFF (pb * 0xFFFF / d.toNat)

/-- Modelled from the spec: the drop decision engine (the body of
should_drop is not in the available sources).  Given the freshly updated
average `avg` and the uniform random draw `draw` (out of 0xFFFF):
if `avg < min_thresh` the verdict is accept with `count` set to -1; if
`avg ≥ max_thresh` the verdict is a forced drop; otherwise the verdict is
probabilistic with the count-compensated probability, resetting `count`
to 0 on drop and incrementing it on accept.  Every drop increments the
global `drops` counter. -/
def should_drop (st : ElementState) (avg : Nat) (draw : Nat) :
    Bool × ElementState :=
  if avg < st.min_thresh then
    (false, { st with size := avg, count := -1 })
  else if st.max_thresh ≤ avg then
    (true, { st with size := avg, drops := st.drops + 1 })
  else
    let pb := computePb st.min_thresh st.max_thresh st.max_p avg
    let pa := computePa pb st.count
    if draw < pa then
      (true, { st with
                size := avg
                count := 0
                drops := st.drops + 1
                random_value := draw })
    else
      (false, { st with
                size := avg
                count := st.count + 1
                random_value := draw })

/-- Modelled from the spec: the per-packet decision with no fresh sample
pending, so the average used is the current estimate. -/
def decide_packet (st : ElementState) (draw : Nat) : Bool × ElementState :=
  should_drop st st.size draw

/-- The absolute ceiling for the adaptive controller: 50% of the 0xFFFF
probability scale. -/
def MAXP_CEILING : Nat := 0xFFFF / 2

/-- Modelled from the spec: one firing of the adaptive controller (the body
of run_scheduled is not in the available sources).  If the current average
exceeds the midpoint of the threshold band, `max_p` is increased by
dividing it by NINE_TENTHS/0x10000 (a fixed constant below 1); otherwise
it is decreased by multiplying by that constant; the result is clamped to
the band [ONE_HUNDREDTH, MAXP_CEILING]. -/
def run_scheduled (mn mx mp avg : Nat) : Nat :=
  let mid := (mn + mx) / 2
  let raw := if mid < avg then mp * 0x10000 / NINE_TENTHS
             else mp * NINE_TENTHS / 0x10000
  min MAXP_CEILING (max ONE_HUNDREDTH raw)

/-- Modelled from the spec: the controller tick acting on the whole element
state; it reads the current average and adjusts `max_p` only. -/
def controller_tick (st : ElementState) : ElementState :=
  { st with max_p := run_scheduled st.min_thresh st.max_thresh st.max_p st.size }

/-- Modelled from the spec: the period, in milliseconds, with which the
controller timer is armed at initialization; it is the fixed constant
ADAPTIVE_INTERVAL, independent of the packet rate. -/
def initial_timer_period : Nat := ADAPTIVE_INTERVAL

/-- Modelled from the spec: one tick of idle decay of the average
estimator, in fixed point: the average is multiplied by the decay factor
`f` on the scale `w` (the EWMA update body is not in the available
sources). -/
def decay_step (w f a : Nat) : Nat := a * f / w

/-- Modelled from the spec: the closed-form extrapolation of `n` idle
ticks of decay, computed from the precomputed powers of the decay factor
(the G1/G2 coefficients of adaptivered.hh lines 123-124, whose computation
is not in the available sources): the average is multiplied by the n-th
power of the decay factor in one fixed-point step. -/
def decay_closed (w f : Nat) (n : Nat) (a : Nat) : Nat := a * f ^ n / w ^ n

/-- Modelled from the spec: incorporating a zero-occupancy sample after an
idle gap of `n` ticks uses the closed-form extrapolation. -/
def update_zero_period (w f : Nat) (n : Nat) (a : Nat) : Nat :=
  decay_closed w f n a

/-- Modelled from the spec: blending a fresh scaled sample `q` into the
average with the C1/C2 weights, one application per distinct tick. -/
def blend_sample (w f a q : Nat) : Nat := (a * f + q * (w - f)) / w

/-- The operations the average estimator exposes: a pure read of the
estimate, or the incorporation of a sample `q` after an idle gap of
`gap` ticks. -/
inductive REDOp where
  | read : REDOp
  | incorporate : Nat → Nat → REDOp
deriving DecidableEq

/-- Modelled from the spec, except that the pure read is directly the
const accessor of adaptivered.hh line 87: applying an estimator operation
to the element state.  A read changes nothing; an incorporation first
extrapolates the idle decay and then blends the fresh sample. -/
def apply_op (w f : Nat) : REDOp → ElementState → ElementState
  | .read, st => st
  | .incorporate q gap, st =>
      { st with size := blend_sample w f (update_zero_period w f gap st.size) q }

/-- Modelled from the spec: the hot-swap hand-off (the body of take_state,
adaptivered.hh line 94, is not in the available sources).  The
predecessor's average, decision counter and drop total are copied verbatim
into the successor; the successor keeps its own configuration. -/
def take_state (a b : ElementState) : ElementState :=
  { b with size := a.size, count := a.count, drops := a.drops }

/-- Modelled from the spec: parameter validation (the body of
check_params, adaptivered.hh line 92, is not in the available sources).
Valid means `min_thresh < max_thresh`, `max_p` within the 0xFFFF scale,
and at least one Storage collaborator. -/
def check_params (mn mx mp : Nat) (nqueues : Nat) : Bool :=
  decide (mn < mx) && decide (mp ≤ 0xFFFF) && decide (0 < nqueues)

/-- Modelled from the spec: initial setup (the configure body is not in
the available sources).  On invalid parameters no element state is
produced at all. -/
def configure (mn mx mp : Nat) (qs : List Nat) : Option ElementState :=
  if check_params mn mx mp qs.length then
    some { min_thresh := mn, max_thresh := mx, max_p := mp, size := 0,
           count := -1, drops := 0, random_value := 0, queues := qs }
  else none

/-- Modelled from the spec: live reconfiguration (the body of
live_reconfigure, adaptivered.hh line 97, is not in the available
sources).  A valid reconfiguration replaces only the configuration
parameters, preserving average/decision/counter state; an invalid one
keeps the prior configuration in effect. -/
def live_reconfigure (st : ElementState) (mn mx mp : Nat) (qs : List Nat) :
    ElementState :=
  if check_params mn mx mp qs.length then
    { st with min_thresh := mn, max_thresh := mx, max_p := mp, queues := qs }
  else st

/-- Modelled from the spec: the processing-code convention of the element
framework (the interpreter lives outside the available sources).  Each
port takes the character at its index; when there are fewer characters
than ports the final character repeats; an empty code list means
agnostic. -/
def port_code : List Char → Nat → Char
  | [], _ => 'a'
  | [c], _ => c
  | c :: _ :: _, 0 => c
  | _ :: c :: rest, n + 1 => port_code (c :: rest) n

/-- Modelled from the spec: the input port codes are the part of the
processing string before the slash. -/
def input_code (s : String) (port : Nat) : Char :=
  port_code (s.toList.takeWhile (fun c => c ≠ '/')) port

/-- Modelled from the spec: the output port codes are the part of the
processing string after the slash. -/
def output_code (s : String) (port : Nat) : Char :=
  port_code ((s.toList.dropWhile (fun c => c ≠ '/')).drop 1) port

/-- Modelled from the spec: realizing a verdict in pull mode (the pull
body is not in the available sources).  The first component is what is
returned to the pulling caller; the second lists the packets pushed out on
output 1.  A dropped packet is diverted to output 1 when that output
exists and destroyed otherwise; it is never returned to the caller. -/
def pull_result (verdict : Bool) (p : Nat) (nout : Nat) :
    Option Nat × List Nat :=
  if verdict then (none, if 2 ≤ nout then [p] else []) else (some p, [])

/-- Linux errno for a retryable non-blocking write. -/
def EAGAIN : Nat := 11

/-- Linux errno for an interrupted system call. -/
def EINTR : Nat := 4

/-- Linux errno for an invalid argument. -/
def EINVAL : Nat := 22

/-- One outcome of the write system call in click-install.cc lines
540-544: a non-negative byte count, or an error with an errno value. -/
inductive WriteResult where
  | ok : Nat → WriteResult
  | err : Nat → WriteResult
deriving DecidableEq

/-- The outcome of the configuration write loop: all bytes written (with
the final position), a fatal error on a non-retryable errno, or the
modelled system-call trace ran out while bytes remained. -/
inductive LoopOutcome where
  | done : Nat → LoopOutcome
  | fatal : Nat → LoopOutcome
  | pending : Nat → LoopOutcome
deriving DecidableEq

/-- The configuration write loop of click-install.cc lines 538-545, over a
trace of write results: while `pos < len`, issue a write; a non-negative
result advances `pos` by the bytes written; EAGAIN and EINTR are retried;
any other error is fatal. -/
def write_loop : List WriteResult → Nat → Nat → LoopOutcome
  | [], pos, len => if len ≤ pos then .done pos else .pending pos
  | r :: rest, pos, len =>
      if len ≤ pos then .done pos
      else
        match r with
        | .ok n => write_loop rest (pos + n) len
        | .err e =>
            if e = EAGAIN ∨ e = EINTR then write_loop rest pos len
            else .fatal e

/-- The exit status after closing the configuration file, from
click-install.cc lines 546-550 and 586: status 2 exactly when close fails
with EINVAL, 0 otherwise. -/
def close_exit_status (retval : Int) (e : Nat) : Nat :=
  if retval < 0 ∧ e = EINVAL then 2 else 0

/-- Whether the close failure is reported as an error message (without
changing the exit status), from click-install.cc lines 549-550. -/
def close_reports_error (retval : Int) (e : Nat) : Bool :=
  decide (retval < 0) && !(decide (e = EINVAL))

/-- The file the flattened configuration is written to, from
click-install.cc lines 433-434 and 530: the hotconfig file under
--hot-swap, otherwise the config file. -/
def config_place (hotswap : Bool) : String :=
  if hotswap then "/click/hotconfig" else "/click/config"

/-- In the linear region the count-compensated probability never exceeds
the 0xFFFF scale. -/
theorem computePa_le_scale (pb : Nat) (c : Int) : computePa pb c ≤ 0xFFFF := by
  simp only [computePa]
  split
  · exact le_refl _
  · exact min_le_left _ _

/-- C1: in the linear region (min_thresh ≤ avg < max_thresh) the engine
computes pb by linear interpolation, the count-compensated pa clamped to
the 0xFFFF scale, and compares the uniform draw against pa; a drop resets
count to 0 and increments drops, an accept increments count. -/
theorem red_linear_region_decision (st : ElementState) (avg draw : Nat)
    (h1 : st.min_thresh ≤ avg) (h2 : avg < st.max_thresh) :
    computePa (computePb st.min_thresh st.max_thresh st.max_p avg) st.count
      ≤ 0xFFFF ∧
    should_drop st avg draw =
      (if draw <
          computePa (computePb st.min_thresh st.max_thresh st.max_p avg)
            st.count then
        (true, { st with
                  size := avg
                  count := 0
                  drops := st.drops + 1
                  random_value := draw })
      else
        (false, { st with
                  size := avg
                  count := st.count + 1
                  random_value := draw })) := by
  refine ⟨computePa_le_scale _ _, ?_⟩
  unfold should_drop
  rw [if_neg (not_lt.mpr h1), if_neg (not_le.mpr h2)]

/-- Witness for C1 at a concrete state in the linear region (the draw 100
lies below pa = 138, so the verdict is drop). -/
theorem red_linear_region_decision_witness :
    5120 ≤ 10000 ∧ 10000 < 51200 ∧
    (computePa (computePb 5120 51200 1310 10000) (3 : Int) ≤ 0xFFFF ∧
     should_drop ⟨5120, 51200, 1310, 9999, 3, 7, 0, [1]⟩ 10000 100 =
       (if 100 < computePa (computePb 5120 51200 1310 10000) (3 : Int) then
         (true, ⟨5120, 51200, 1310, 10000, 0, 8, 100, [1]⟩)
       else
         (false, ⟨5120, 51200, 1310, 10000, 4, 7, 100, [1]⟩))) :=
  ⟨by decide, by decide,
   red_linear_region_decision ⟨5120, 51200, 1310, 9999, 3, 7, 0, [1]⟩
     10000 100 (by decide) (by decide)⟩

/-- C2: below min_thresh the verdict is accept with count set to -1; at or
above max_thresh (under the configuration invariant min_thresh <
max_thresh) the verdict is drop, and the outcome does not depend on the
random draw at all. -/
theorem red_extreme_region_decision (st : ElementState) (avg draw : Nat) :
    (avg < st.min_thresh →
      should_drop st avg draw = (false, { st with size := avg, count := -1 })) ∧
    (st.min_thresh < st.max_thresh → st.max_thresh ≤ avg →
      should_drop st avg draw =
        (true, { st with size := avg, drops := st.drops + 1 }) ∧
      ∀ d2, should_drop st avg draw = should_drop st avg d2) := by
  constructor
  · intro h
    unfold should_drop
    rw [if_pos h]
  · intro hv h
    have hnot : ¬ avg < st.min_thresh :=
      not_lt.mpr (le_trans (le_of_lt hv) h)
    constructor
    · unfold should_drop
      rw [if_neg hnot, if_pos h]
    · intro d2
      simp only [should_drop, if_neg hnot, if_pos h]

/-- Witness for C2 at concrete states in both extreme regions. -/
theorem red_extreme_region_decision_witness :
    (3000 < 5120 ∧
     should_drop ⟨5120, 51200, 1310, 9999, 3, 7, 0, [1]⟩ 3000 100 =
       (false, ⟨5120, 51200, 1310, 3000, -1, 7, 0, [1]⟩)) ∧
    (5120 < 51200 ∧ 51200 ≤ 60000 ∧
     should_drop ⟨5120, 51200, 1310, 9999, 3, 7, 0, [1]⟩ 60000 100 =
       (true, ⟨5120, 51200, 1310, 60000, 3, 8, 0, [1]⟩) ∧
     ∀ d2, should_drop ⟨5120, 51200, 1310, 9999, 3, 7, 0, [1]⟩ 60000 100 =
       should_drop ⟨5120, 51200, 1310, 9999, 3, 7, 0, [1]⟩ 60000 d2) :=
  ⟨⟨by decide,
    (red_extreme_region_decision ⟨5120, 51200, 1310, 9999, 3, 7, 0, [1]⟩
      3000 100).1 (by decide)⟩,
   by decide, by decide,
   (red_extreme_region_decision ⟨5120, 51200, 1310, 9999, 3, 7, 0, [1]⟩
      60000 100).2 (by decide) (by decide)⟩

/-- The controller tick never produces a value above the absolute
ceiling. -/
theorem run_scheduled_le_ceiling (mn mx mp avg : Nat) :
    run_scheduled mn mx mp avg ≤ MAXP_CEILING := by
  simp only [run_scheduled]
  exact min_le_left _ _

/-- The controller tick never produces a value below the absolute
floor. -/
theorem run_scheduled_ge_floor (mn mx mp avg : Nat) :
    ONE_HUNDREDTH ≤ run_scheduled mn mx mp avg := by
  simp only [run_scheduled]
  exact le_min (by decide) (le_max_left _ _)

/-- Above the midpoint the tick does not decrease max_p, as long as max_p
is within the ceiling. -/
theorem run_scheduled_incr (mn mx mp avg : Nat)
    (h : (mn + mx) / 2 < avg) (hp : mp ≤ MAXP_CEILING) :
    mp ≤ run_scheduled mn mx mp avg := by
  simp only [run_scheduled, if_pos h]
  refine le_min hp (le_trans ?_ (le_max_right _ _))
  exact (Nat.le_div_iff_mul_le (by decide)).mpr
    (Nat.mul_le_mul (le_refl mp) (by decide))

/-- At or below the midpoint the tick does not increase max_p, as long as
max_p is at or above the floor. -/
theorem run_scheduled_decr (mn mx mp avg : Nat)
    (h : avg ≤ (mn + mx) / 2) (hp : ONE_HUNDREDTH ≤ mp) :
    run_scheduled mn mx mp avg ≤ mp := by
  simp only [run_scheduled, if_neg (not_lt.mpr h)]
  refine le_trans (min_le_right _ _) (max_le hp ?_)
  calc mp * NINE_TENTHS / 0x10000
      ≤ mp * 0x10000 / 0x10000 :=
        Nat.div_le_div_right (Nat.mul_le_mul (le_refl mp) (by decide))
    _ = mp := Nat.mul_div_cancel _ (by decide)

/-- Iterated controller ticks do not change the thresholds, the average
or the queue membership. -/
theorem controller_tick_iterate_fields (st : ElementState) (n : Nat) :
    (controller_tick^[n] st).min_thresh = st.min_thresh ∧
    (controller_tick^[n] st).max_thresh = st.max_thresh ∧
    (controller_tick^[n] st).size = st.size ∧
    (controller_tick^[n] st).queues = st.queues := by
  induction n with
  | zero => exact ⟨rfl, rfl, rfl, rfl⟩
  | succ n ih =>
      rw [Function.iterate_succ_apply']
      exact ih

/-- C3: each controller firing (whose timer is armed with the fixed
constant period ADAPTIVE_INTERVAL = 500, independent of packet rate)
divides max_p by the constant NINE_TENTHS/0x10000 (a constant below 1)
when the average exceeds the band midpoint and multiplies by it
otherwise, then clamps to the band from ONE_HUNDREDTH (1% of 0xFFFF) to
MAXP_CEILING (50% of 0xFFFF), which the result therefore never leaves. -/
theorem adaptive_controller_tick_spec :
    initial_timer_period = 500 ∧
    ADAPTIVE_INTERVAL = 500 ∧
    NINE_TENTHS < 0x10000 ∧
    ONE_HUNDREDTH = 0xFFFF / 100 ∧
    MAXP_CEILING = 0xFFFF / 2 ∧
    ∀ mn mx mp avg,
      ONE_HUNDREDTH ≤ run_scheduled mn mx mp avg ∧
      run_scheduled mn mx mp avg ≤ MAXP_CEILING ∧
      ((mn + mx) / 2 < avg →
        run_scheduled mn mx mp avg =
          min MAXP_CEILING (max ONE_HUNDREDTH (mp * 0x10000 / NINE_TENTHS))) ∧
      (avg ≤ (mn + mx) / 2 →
        run_scheduled mn mx mp avg =
          min MAXP_CEILING (max ONE_HUNDREDTH (mp * NINE_TENTHS / 0x10000))) := by
  refine ⟨rfl, rfl, by decide, by decide, rfl, fun mn mx mp avg => ?_⟩
  refine ⟨run_scheduled_ge_floor mn mx mp avg,
          run_scheduled_le_ceiling mn mx mp avg, ?_, ?_⟩
  · intro h
    simp only [run_scheduled, if_pos h]
  · intro h
    simp only [run_scheduled, if_neg (not_lt.mpr h)]

/-- Witness for C3 at a concrete configuration on both sides of the
midpoint. -/
theorem adaptive_controller_tick_spec_witness :
    ((5120 + 51200) / 2 < 40000 ∧
     run_scheduled 5120 51200 1310 40000 =
       min MAXP_CEILING (max ONE_HUNDREDTH (1310 * 0x10000 / NINE_TENTHS))) ∧
    (10000 ≤ (5120 + 51200) / 2 ∧
     run_scheduled 5120 51200 1310 10000 =
       min MAXP_CEILING (max ONE_HUNDREDTH (1310 * NINE_TENTHS / 0x10000))) :=
  ⟨⟨by decide,
    (adaptive_controller_tick_spec.2.2.2.2.2 5120 51200 1310 40000).2.2.1
      (by decide)⟩,
   by decide,
   (adaptive_controller_tick_spec.2.2.2.2.2 5120 51200 1310 10000).2.2.2
     (by decide)⟩

/-- C4: a controller tick modifies max_p only, never the thresholds, the
average or the queue membership; while the average stays above the band
midpoint, iterated ticks keep max_p non-decreasing and within the
ceiling, and while it stays at or below the midpoint they keep max_p
non-increasing and at or above the floor. -/
theorem adaptive_controller_monotone (st : ElementState) :
    ((controller_tick st).min_thresh = st.min_thresh ∧
     (controller_tick st).max_thresh = st.max_thresh ∧
     (controller_tick st).size = st.size ∧
     (controller_tick st).queues = st.queues) ∧
    ((st.min_thresh + st.max_thresh) / 2 < st.size →
     st.max_p ≤ MAXP_CEILING →
      ∀ n, (controller_tick^[n] st).max_p ≤ (controller_tick^[n + 1] st).max_p ∧
           (controller_tick^[n] st).max_p ≤ MAXP_CEILING) ∧
    (st.size ≤ (st.min_thresh + st.max_thresh) / 2 →
     ONE_HUNDREDTH ≤ st.max_p →
      ∀ n, (controller_tick^[n + 1] st).max_p ≤ (controller_tick^[n] st).max_p ∧
           ONE_HUNDREDTH ≤ (controller_tick^[n] st).max_p) := by
  refine ⟨⟨rfl, rfl, rfl, rfl⟩, ?_, ?_⟩
  · intro h hp
    have hbound : ∀ n, (controller_tick^[n] st).max_p ≤ MAXP_CEILING := by
      intro n
      cases n with
      | zero => exact hp
      | succ n =>
          rw [Function.iterate_succ_apply']
          exact run_scheduled_le_ceiling _ _ _ _
    intro n
    refine ⟨?_, hbound n⟩
    obtain ⟨e1, e2, e3, _⟩ := controller_tick_iterate_fields st n
    rw [Function.iterate_succ_apply']
    show (controller_tick^[n] st).max_p ≤
      run_scheduled (controller_tick^[n] st).min_thresh
        (controller_tick^[n] st).max_thresh (controller_tick^[n] st).max_p
        (controller_tick^[n] st).size
    rw [e1, e2, e3]
    exact run_scheduled_incr _ _ _ _ h (hbound n)
  · intro h hp
    have hbound : ∀ n, ONE_HUNDREDTH ≤ (controller_tick^[n] st).max_p := by
      intro n
      cases n with
      | zero => exact hp
      | succ n =>
          rw [Function.iterate_succ_apply']
          exact run_scheduled_ge_floor _ _ _ _
    intro n
    refine ⟨?_, hbound n⟩
    obtain ⟨e1, e2, e3, _⟩ := controller_tick_iterate_fields st n
    rw [Function.iterate_succ_apply']
    show run_scheduled (controller_tick^[n] st).min_thresh
        (controller_tick^[n] st).max_thresh (controller_tick^[n] st).max_p
        (controller_tick^[n] st).size ≤ (controller_tick^[n] st).max_p
    rw [e1, e2, e3]
    exact run_scheduled_decr _ _ _ _ h (hbound n)

/-- Witness for C4 at a concrete state with the average above the
midpoint, two ticks in. -/
theorem adaptive_controller_monotone_witness :
    (5120 + 51200) / 2 < 40000 ∧ (1310 : Nat) ≤ MAXP_CEILING ∧
    ((controller_tick^[2] ⟨5120, 51200, 1310, 40000, 3, 7, 0, [1]⟩).max_p ≤
       (controller_tick^[3] ⟨5120, 51200, 1310, 40000, 3, 7, 0, [1]⟩).max_p ∧
     (controller_tick^[2] ⟨5120, 51200, 1310, 40000, 3, 7, 0, [1]⟩).max_p ≤
       MAXP_CEILING) :=
  ⟨by decide, by decide,
   (adaptive_controller_monotone ⟨5120, 51200, 1310, 40000, 3, 7, 0, [1]⟩).2.1
     (by decide) (by decide) 2⟩

/-- Fixed-point division chain bound: dividing in two steps never exceeds
the combined division. -/
theorem div_mul_div_chain (a b f w : Nat) (hb : 0 < b) :
    a / b * f / w ≤ a * f / (b * w) := by
  have h1 : a / b * f ≤ a * f / b := by
    rw [Nat.le_div_iff_mul_le hb]
    calc a / b * f * b = a / b * b * f := mul_right_comm _ _ _
      _ ≤ a * f := Nat.mul_le_mul (Nat.div_mul_le_self a b) (le_refl f)
  calc a / b * f / w ≤ a * f / b / w := Nat.div_le_div_right h1
    _ = a * f / (b * w) := Nat.div_div_eq_div_mul _ _ _

/-- The iterated single-tick decay never exceeds the closed-form
extrapolation. -/
theorem decay_iter_le_closed (w f : Nat) (hw : 0 < w) (n a : Nat) :
    (decay_step w f)^[n] a ≤ decay_closed w f n a := by
  induction n with
  | zero => simp [decay_closed]
  | succ n ih =>
      rw [Function.iterate_succ_apply']
      have step_mono :
          decay_step w f ((decay_step w f)^[n] a) ≤
            decay_step w f (decay_closed w f n a) :=
        Nat.div_le_div_right (Nat.mul_le_mul ih (le_refl f))
      refine le_trans step_mono ?_
      show a * f ^ n / w ^ n * f / w ≤ a * f ^ (n + 1) / w ^ (n + 1)
      calc a * f ^ n / w ^ n * f / w
          ≤ a * f ^ n * f / (w ^ n * w) :=
            div_mul_div_chain _ _ _ _ (pow_pos hw n)
        _ = a * f ^ (n + 1) / w ^ (n + 1) := by
            rw [pow_succ, pow_succ, ← mul_assoc]

/-- The closed-form extrapolation exceeds the iterated decay by at most
one unit of rounding per idle tick. -/
theorem decay_closed_le_iter_add (w f : Nat) (hw : 0 < w) (hf : f ≤ w)
    (n a : Nat) :
    decay_closed w f n a ≤ (decay_step w f)^[n] a + n := by
  induction n with
  | zero => simp [decay_closed]
  | succ n ih =>
      have hwn : 0 < w ^ n := pow_pos hw n
      have hr : a * f ^ n % w ^ n < w ^ n := Nat.mod_lt _ hwn
      have hnum : a * f ^ (n + 1) ≤ w ^ n * (decay_closed w f n a * f + w) := by
        calc a * f ^ (n + 1) = a * f ^ n * f := by rw [pow_succ, ← mul_assoc]
          _ = (w ^ n * (a * f ^ n / w ^ n) + a * f ^ n % w ^ n) * f := by
              rw [Nat.div_add_mod]
          _ = w ^ n * (a * f ^ n / w ^ n * f) + a * f ^ n % w ^ n * f := by
              ring
          _ ≤ w ^ n * (a * f ^ n / w ^ n * f) + w ^ n * w := by
              exact Nat.add_le_add_left
                (Nat.mul_le_mul (le_of_lt hr) hf) _
          _ = w ^ n * (decay_closed w f n a * f + w) := by
              rw [Nat.mul_add]
              rfl
      have key : decay_closed w f (n + 1) a ≤
          decay_step w f (decay_closed w f n a) + 1 := by
        calc decay_closed w f (n + 1) a
            = a * f ^ (n + 1) / (w ^ n * w) := by
              rw [decay_closed, pow_succ w n]
          _ ≤ w ^ n * (decay_closed w f n a * f + w) / (w ^ n * w) :=
              Nat.div_le_div_right hnum
          _ = (decay_closed w f n a * f + w) / w :=
              Nat.mul_div_mul_left _ _ hwn
          _ = decay_closed w f n a * f / w + 1 := Nat.add_div_right _ hw
          _ = decay_step w f (decay_closed w f n a) + 1 := rfl
      have mono : decay_step w f (decay_closed w f n a) ≤
          decay_step w f ((decay_step w f)^[n] a + n) :=
        Nat.div_le_div_right (Nat.mul_le_mul ih (le_refl f))
      have shift : decay_step w f ((decay_step w f)^[n] a + n) ≤
          decay_step w f ((decay_step w f)^[n] a) + n := by
        show ((decay_step w f)^[n] a + n) * f / w ≤
          (decay_step w f)^[n] a * f / w + n
        calc ((decay_step w f)^[n] a + n) * f / w
            ≤ ((decay_step w f)^[n] a * f + w * n) / w := by
              refine Nat.div_le_div_right ?_
              calc ((decay_step w f)^[n] a + n) * f
                  = (decay_step w f)^[n] a * f + n * f := by ring
                _ ≤ (decay_step w f)^[n] a * f + w * n := by
                    rw [mul_comm w n]
                    exact Nat.add_le_add_left
                      (Nat.mul_le_mul (le_refl n) hf) _
          _ = (decay_step w f)^[n] a * f / w + n :=
              Nat.add_mul_div_left _ _ hw
      rw [Function.iterate_succ_apply']
      calc decay_closed w f (n + 1) a
          ≤ decay_step w f (decay_closed w f n a) + 1 := key
        _ ≤ decay_step w f ((decay_step w f)^[n] a) + n + 1 :=
            Nat.add_le_add_right (le_trans mono shift) 1
        _ = decay_step w f ((decay_step w f)^[n] a) + (n + 1) := by omega

/-- C5: incorporating a zero-occupancy sample after an idle gap of n
ticks via the closed-form extrapolation agrees with applying the
single-tick decay n times, within a rounding tolerance of at most one
unit per tick: the iterative value never exceeds the closed form, and
the closed form exceeds the iterative value by at most n. -/
theorem idle_decay_closed_matches_iterative (w f : Nat)
    (hw : 0 < w) (hf : f ≤ w) (n a : Nat) :
    (decay_step w f)^[n] a ≤ update_zero_period w f n a ∧
    update_zero_period w f n a ≤ (decay_step w f)^[n] a + n :=
  ⟨decay_iter_le_closed w f hw n a, decay_closed_le_iter_add w f hw hf n a⟩

/-- Witness for C5 at the 16-bit fixed-point scale with decay factor
0.9 (NINE_TENTHS) across a 5-tick idle gap. -/
theorem idle_decay_closed_matches_iterative_witness :
    0 < 65536 ∧ 58982 ≤ 65536 ∧
    ((decay_step 65536 58982)^[5] 100000 ≤
       update_zero_period 65536 58982 5 100000 ∧
     update_zero_period 65536 58982 5 100000 ≤
       (decay_step 65536 58982)^[5] 100000 + 5) :=
  ⟨by decide, by decide,
   idle_decay_closed_matches_iterative 65536 58982 (by decide) (by decide)
     5 100000⟩

/-- C6: the hot-swap hand-off copies the predecessor's average estimate,
decision counter and drop total verbatim into the successor, which keeps
its own configuration; the successor's next decision is then governed by
the transferred average V, and its drop counter continues from the
transferred total D (one more drop yields D + 1, not 1). -/
theorem take_state_continuity (a b : ElementState) :
    (take_state a b).size = a.size ∧
    (take_state a b).count = a.count ∧
    (take_state a b).drops = a.drops ∧
    (take_state a b).min_thresh = b.min_thresh ∧
    (take_state a b).max_thresh = b.max_thresh ∧
    (take_state a b).max_p = b.max_p ∧
    (take_state a b).queues = b.queues ∧
    ∀ draw,
      (decide_packet (take_state a b) draw).2.drops =
        a.drops + (if (decide_packet (take_state a b) draw).1 then 1 else 0) ∧
      (a.size < b.min_thresh →
        (decide_packet (take_state a b) draw).1 = false) ∧
      (b.min_thresh ≤ a.size → b.max_thresh ≤ a.size →
        (decide_packet (take_state a b) draw).1 = true) := by
  refine ⟨rfl, rfl, rfl, rfl, rfl, rfl, rfl, fun draw => ⟨?_, ?_, ?_⟩⟩
  · simp only [decide_packet, should_drop, take_state]
    split_ifs <;> simp_all
  · intro h
    simp only [decide_packet, should_drop, take_state]
    rw [if_pos h]
  · intro h1 h2
    simp only [decide_packet, should_drop, take_state]
    rw [if_neg (not_lt.mpr h1), if_pos h2]

/-- Witness for C6 transferring state with average 60000 and 7 drops into
a successor whose forced-drop region contains that average. -/
theorem take_state_continuity_witness :
    (take_state ⟨1, 2, 3, 60000, 5, 7, 9, [4]⟩
       ⟨5120, 51200, 1310, 0, -1, 0, 0, [2]⟩).size = 60000 ∧
    (take_state ⟨1, 2, 3, 60000, 5, 7, 9, [4]⟩
       ⟨5120, 51200, 1310, 0, -1, 0, 0, [2]⟩).drops = 7 ∧
    (decide_packet (take_state ⟨1, 2, 3, 60000, 5, 7, 9, [4]⟩
       ⟨5120, 51200, 1310, 0, -1, 0, 0, [2]⟩) 100).2.drops =
      7 + (if (decide_packet (take_state ⟨1, 2, 3, 60000, 5, 7, 9, [4]⟩
        ⟨5120, 51200, 1310, 0, -1, 0, 0, [2]⟩) 100).1 then 1 else 0) ∧
    (5120 ≤ 60000 ∧ 51200 ≤ 60000 ∧
     (decide_packet (take_state ⟨1, 2, 3, 60000, 5, 7, 9, [4]⟩
        ⟨5120, 51200, 1310, 0, -1, 0, 0, [2]⟩) 100).1 = true) :=
  ⟨(take_state_continuity ⟨1, 2, 3, 60000, 5, 7, 9, [4]⟩
      ⟨5120, 51200, 1310, 0, -1, 0, 0, [2]⟩).1,
   (take_state_continuity ⟨1, 2, 3, 60000, 5, 7, 9, [4]⟩
      ⟨5120, 51200, 1310, 0, -1, 0, 0, [2]⟩).2.2.1,
   ((take_state_continuity ⟨1, 2, 3, 60000, 5, 7, 9, [4]⟩
      ⟨5120, 51200, 1310, 0, -1, 0, 0, [2]⟩).2.2.2.2.2.2.2 100).1,
   by decide, by decide,
   ((take_state_continuity ⟨1, 2, 3, 60000, 5, 7, 9, [4]⟩
      ⟨5120, 51200, 1310, 0, -1, 0, 0, [2]⟩).2.2.2.2.2.2.2 100).2.2
     (by decide) (by decide)⟩

/-- C7: setup or live reconfiguration with min_thresh ≥ max_thresh, with
max_p above the 0xFFFF scale, or with no Storage collaborator is a
configuration error: setup produces no element state at all, and a failed
live reconfiguration leaves the prior configuration fully in effect. -/
theorem config_rejection (mn mx mp : Nat) (qs : List Nat)
    (st : ElementState)
    (h : mx ≤ mn ∨ 0xFFFF < mp ∨ qs = []) :
    configure mn mx mp qs = none ∧
    live_reconfigure st mn mx mp qs = st := by
  have hc : check_params mn mx mp qs.length = false := by
    rcases h with h | h | h
    · simp [check_params, not_lt.mpr h]
    · simp [check_params, not_le.mpr h]
    · subst h
      simp [check_params]
  constructor
  · simp [configure, hc]
  · simp [live_reconfigure, hc]

/-- Witness for C7: inverted thresholds are rejected and a running state
survives the failed live reconfiguration untouched. -/
theorem config_rejection_witness :
    (50 ≤ 100 ∨ 0xFFFF < 20 ∨ ([3] : List Nat) = []) ∧
    configure 100 50 20 [3] = none ∧
    live_reconfigure ⟨5120, 51200, 1310, 9999, 3, 7, 0, [1]⟩ 100 50 20 [3] =
      ⟨5120, 51200, 1310, 9999, 3, 7, 0, [1]⟩ :=
  ⟨Or.inl (by decide),
   config_rejection 100 50 20 [3] ⟨5120, 51200, 1310, 9999, 3, 7, 0, [1]⟩
     (Or.inl (by decide))⟩

/-- C8: reading the average estimate is pure: any number of consecutive
reads leaves the state untouched and returns the identical value, and the
idle decay is applied only by a sample incorporation, which extrapolates
the elapsed gap and then blends the fresh sample. -/
theorem average_read_idempotent (w f : Nat) (st : ElementState)
    (k : Nat) (q gap : Nat) :
    apply_op w f .read st = st ∧
    (apply_op w f .read)^[k] st = st ∧
    average_queue_size ((apply_op w f .read)^[k] st) =
      average_queue_size st ∧
    (apply_op w f (.incorporate q gap) st).size =
      blend_sample w f (update_zero_period w f gap st.size) q := by
  have hfix : (apply_op w f .read)^[k] st = st :=
    Function.iterate_fixed rfl k
  exact ⟨rfl, hfix, by rw [hfix], rfl⟩

/-- C9: the processing signature is the string "a/ah": input 0 and
output 0 take the agnostic code while every output from 1 on takes the
push code, so a marked packet diverted to output 1 is pushed out
immediately; in pull mode a dropped packet is never returned to the
pulling caller — it is pushed on output 1 when that output exists. -/
theorem processing_signature_push_output :
    processing = "a/ah" ∧
    input_code processing 0 = 'a' ∧
    output_code processing 0 = 'a' ∧
    (∀ n, 1 ≤ n → output_code processing n = 'h') ∧
    (∀ p nout, (pull_result true p nout).1 = none) ∧
    (∀ p nout, 2 ≤ nout → pull_result true p nout = (none, [p])) ∧
    (∀ p, pull_result false p 2 = (some p, [])) := by
  have hlist : (processing.toList.dropWhile (fun c => c ≠ '/')).drop 1 =
      ['a', 'h'] := by decide
  refine ⟨rfl, rfl, rfl, ?_, ?_, ?_, fun p => rfl⟩
  · intro n hn
    obtain ⟨m, rfl⟩ : ∃ m, n = m + 1 :=
      ⟨n - 1, (Nat.succ_pred_eq_of_pos hn).symm⟩
    simp only [output_code, hlist]
    rw [port_code]
    rfl
  · intro p nout
    simp [pull_result]
  · intro p nout h
    simp [pull_result, h]

/-- Witness for C9 at output port 1 with two configured outputs. -/
theorem processing_signature_push_output_witness :
    (1 ≤ 1 ∧ output_code processing 1 = 'h') ∧
    (2 ≤ 2 ∧ pull_result true 42 2 = (none, [42])) :=
  ⟨⟨by decide, processing_signature_push_output.2.2.2.1 1 (by decide)⟩,
   by decide, processing_signature_push_output.2.2.2.2.2.1 42 2 (by decide)⟩

/-- The write loop only reports completion with every byte written: a done
outcome carries a position at or beyond the configuration length. -/
theorem write_loop_done_complete :
    ∀ (rs : List WriteResult) (pos len p : Nat),
      write_loop rs pos len = .done p → len ≤ p := by
  intro rs
  induction rs with
  | nil =>
      intro pos len p h
      simp only [write_loop] at h
      by_cases hc : len ≤ pos
      · rw [if_pos hc] at h
        injection h with h2
        omega
      · rw [if_neg hc] at h
        simp at h
  | cons r rest ih =>
      intro pos len p h
      simp only [write_loop] at h
      by_cases hc : len ≤ pos
      · rw [if_pos hc] at h
        injection h with h2
        omega
      · rw [if_neg hc] at h
        cases r with
        | ok n => exact ih _ _ _ h
        | err e =>
            dsimp only at h
            by_cases he : e = EAGAIN ∨ e = EINTR
            · rw [if_pos he] at h
              exact ih _ _ _ h
            · rw [if_neg he] at h
              simp at h

/-- C10: the installer writes the flattened configuration to the
hotconfig file under hot-swap and to the config file otherwise; the write
loop runs until every byte is written, continuing after a partial write
and after EAGAIN or EINTR, and failing fatally on any other write error;
the exit status is 2 exactly when closing the file fails with EINVAL,
while any other close failure is reported without changing the status. -/
theorem config_write_loop_spec :
    (config_place true = "/click/hotconfig" ∧
     config_place false = "/click/config") ∧
    (∀ (rs : List WriteResult) (pos len p : Nat),
      write_loop rs pos len = .done p → len ≤ p) ∧
    (∀ (rs : List WriteResult) (pos len n : Nat), pos < len →
      write_loop (.ok n :: rs) pos len = write_loop rs (pos + n) len) ∧
    (∀ (rs : List WriteResult) (pos len : Nat), pos < len →
      write_loop (.err EAGAIN :: rs) pos len = write_loop rs pos len ∧
      write_loop (.err EINTR :: rs) pos len = write_loop rs pos len) ∧
    (∀ (rs : List WriteResult) (pos len e : Nat), pos < len →
      e ≠ EAGAIN → e ≠ EINTR →
      write_loop (.err e :: rs) pos len = .fatal e) ∧
    (∀ (retval : Int) (e : Nat),
      (close_exit_status retval e = 2 ↔ retval < 0 ∧ e = EINVAL) ∧
      (retval < 0 → e ≠ EINVAL →
        close_exit_status retval e = 0 ∧
        close_reports_error retval e = true)) := by
  refine ⟨⟨rfl, rfl⟩, write_loop_done_complete, ?_, ?_, ?_, ?_⟩
  · intro rs pos len n h
    show (if len ≤ pos then LoopOutcome.done pos
          else write_loop rs (pos + n) len) = write_loop rs (pos + n) len
    rw [if_neg (not_le.mpr h)]
  · intro rs pos len h
    constructor
    · show (if len ≤ pos then LoopOutcome.done pos
            else if EAGAIN = EAGAIN ∨ EAGAIN = EINTR then write_loop rs pos len
            else LoopOutcome.fatal EAGAIN) = write_loop rs pos len
      rw [if_neg (not_le.mpr h), if_pos (Or.inl rfl)]
    · show (if len ≤ pos then LoopOutcome.done pos
            else if EINTR = EAGAIN ∨ EINTR = EINTR then write_loop rs pos len
            else LoopOutcome.fatal EINTR) = write_loop rs pos len
      rw [if_neg (not_le.mpr h), if_pos (Or.inr rfl)]
  · intro rs pos len e h h1 h2
    show (if len ≤ pos then LoopOutcome.done pos
          else if e = EAGAIN ∨ e = EINTR then write_loop rs pos len
          else LoopOutcome.fatal e) = LoopOutcome.fatal e
    rw [if_neg (not_le.mpr h), if_neg (not_or.mpr ⟨h1, h2⟩)]
  · intro retval e
    constructor
    · unfold close_exit_status
      split
      · simp_all
      · simp_all
    · intro hr he
      unfold close_exit_status close_reports_error
      simp [hr, he]

/-- Witness for C10: a trace with a partial write, a retried EAGAIN, a
fatal EACCES-like errno, and a close failing with a non-EINVAL errno. -/
theorem config_write_loop_spec_witness :
    ((0 : Nat) < 10 ∧
     write_loop [WriteResult.ok 4] 0 10 = write_loop [] (0 + 4) 10) ∧
    ((3 : Nat) < 10 ∧
     write_loop [WriteResult.err EAGAIN] 3 10 = write_loop [] 3 10) ∧
    ((3 : Nat) < 10 ∧ (13 : Nat) ≠ EAGAIN ∧ (13 : Nat) ≠ EINTR ∧
     write_loop [WriteResult.err 13] 3 10 = LoopOutcome.fatal 13) ∧
    ((-1 : Int) < 0 ∧ (5 : Nat) ≠ EINVAL ∧
     close_exit_status (-1) 5 = 0 ∧ close_reports_error (-1) 5 = true) :=
  ⟨⟨by decide, config_write_loop_spec.2.2.1 [] 0 10 4 (by decide)⟩,
   ⟨by decide, (config_write_loop_spec.2.2.2.1 [] 3 10 (by decide)).1⟩,
   ⟨by decide, by decide, by decide,
    config_write_loop_spec.2.2.2.2.1 [] 3 10 13 (by decide) (by decide)
      (by decide)⟩,
   by decide, by decide,
   (config_write_loop_spec.2.2.2.2.2 (-1) 5).2 (by decide) (by decide)⟩
